import Mathlib

/-!
Verification of the bav-livery-manager core pipeline against its code.

The definitions below are a shallow embedding of the TypeScript sources:
the installed-liveries ledger (installedLiveriesStore), the download
orchestrator (downloadManager), the renderer livery store (liveryStore.ts)
and the uninstall IPC handler (registerHandlers.ts).  External effects
(file system, network, timers) are made explicit: the disk is a list of
existing paths, per-attempt network outcomes are supplied as functions
from the attempt index, and thrown JavaScript errors are the error side
of an Except.
-/

namespace BAV

/-- A JavaScript Error as the code uses it: a message plus an optional
numeric status attached by createRequestError in utils/network. -/
structure JsError where
  message : String
  status : Option Nat
deriving DecidableEq

deriving instance DecidableEq for Except

/-! ## Installed-liveries ledger (installedLiveriesStore, src/unnamed/part_015) -/

/-- InstalledLiveryRecord from installedLiveriesStore. -/
structure InstalledLiveryRecord where
  liveryId : String
  originalName : String
  folderName : String
  installPath : String
  resolution : String
  simulator : String
  installDate : String
  version : Option String
deriving DecidableEq

/-- InstalledLiveriesData: the JSON document with a version field and a
liveries array. -/
structure InstalledLiveriesData where
  version : Nat
  liveries : List InstalledLiveryRecord
deriving DecidableEq

/-- The ledger a fresh install starts from: version DATA_VERSION, no records. -/
def emptyData : InstalledLiveriesData := { version := 1, liveries := [] }

/-- Omit of InstalledLiveryRecord without installDate, the argument type of
recordInstallation. -/
structure NewInstallRecord where
  liveryId : String
  originalName : String
  folderName : String
  installPath : String
  resolution : String
  simulator : String
  version : Option String
deriving DecidableEq

/-- Attach the write-time installDate, as recordInstallation does with the
current date. -/
def NewInstallRecord.withDate (r : NewInstallRecord) (now : String) : InstalledLiveryRecord :=
  { liveryId := r.liveryId, originalName := r.originalName, folderName := r.folderName,
    installPath := r.installPath, resolution := r.resolution, simulator := r.simulator,
    installDate := now, version := r.version }

/-- The identity-triple test used by recordInstallation and friends: strict
equality of originalName, resolution and simulator. -/
def matchesTriple (name res sim : String) (e : InstalledLiveryRecord) : Bool :=
  e.originalName == name && e.resolution == res && e.simulator == sim

/-- recordInstallation: drop every record matching the identity triple of the
new record, then append the new record (with the write-time date). -/
def recordInstallation (r : NewInstallRecord) (now : String)
    (d : InstalledLiveriesData) : InstalledLiveriesData :=
  { d with liveries :=
      (d.liveries.filter fun e =>
        !(matchesTriple r.originalName r.resolution r.simulator e)) ++ [r.withDate now] }

/-- A sequence of recordInstallation calls, oldest first. -/
def upsertAll (rs : List (NewInstallRecord × String)) (d : InstalledLiveriesData) :
    InstalledLiveriesData :=
  rs.foldl (fun acc rt => recordInstallation rt.1 rt.2 acc) d

/-- The ledger invariant the spec states: at most one record per
(originalName, resolution, simulator) triple. -/
def AtMostOnePerTriple (d : InstalledLiveriesData) : Prop :=
  ∀ name res sim, (d.liveries.filter (matchesTriple name res sim)).length ≤ 1

/-- validateInstallations: keep exactly the records whose installPath still
exists on disk, in order.  The disk is abstracted as the fs.pathExists
predicate. -/
def validateInstallations (pathExists : String → Bool)
    (d : InstalledLiveriesData) : InstalledLiveriesData :=
  { d with liveries := d.liveries.filter fun e => pathExists e.installPath }

/-- Model of the external JavaScript toLowerCase method, mapping the
character-wise lowering over the string. -/
def jsToLowerCase (s : String) : String := String.mk (s.data.map Char.toLower)

/-- The comparison key of removeInstallationByPath: normalize the path,
then lower-case it.  path.normalize is external (Node), so it is a
parameter. -/
def pathKey (normalize : String → String) (p : String) : String :=
  jsToLowerCase (normalize p)

/-- removeInstallationByPath: find the first record whose normalized
lower-cased installPath equals the normalized lower-cased argument; if found,
remove that record (object identity removes exactly the found occurrence) and
return it, otherwise leave the ledger unchanged and return none. -/
def removeInstallationByPath (normalize : String → String) (p : String)
    (d : InstalledLiveriesData) : Option InstalledLiveryRecord × InstalledLiveriesData :=
  match d.liveries.find? (fun e => pathKey normalize e.installPath == pathKey normalize p) with
  | none => (none, d)
  | some r =>
      (some r,
        { d with liveries :=
            d.liveries.eraseP fun e => pathKey normalize e.installPath == pathKey normalize p })

/-- The plain success/error result shape of the uninstall IPC handler. -/
structure UninstallOutcome where
  success : Bool
  error : Option String
deriving DecidableEq

/-- The uninstall-livery IPC handler (registerHandlers.ts): remove the record
from the ledger first, then attempt folder deletion when the folder still
exists; a thrown deletion error is caught and returned as success false, and
the already-performed ledger removal is not rolled back. -/
def uninstallLiveryHandler (normalize : String → String) (pathStillExists : Bool)
    (removeOutcome : Except String Unit) (p : String)
    (d : InstalledLiveriesData) : UninstallOutcome × InstalledLiveriesData :=
  if pathStillExists then
    match removeOutcome with
    | .ok _ => ({ success := true, error := none }, (removeInstallationByPath normalize p d).2)
    | .error m => ({ success := false, error := some m }, (removeInstallationByPath normalize p d).2)
  else
    ({ success := true, error := none }, (removeInstallationByPath normalize p d).2)

/-! ## JavaScript string helpers shared by the renderer store and the
orchestrator -/

/-- JavaScript truthiness of a nullable string: null, undefined and the empty
string are falsy. -/
def strTruthy (a : Option String) : Bool :=
  match a with
  | some s => !s.data.isEmpty
  | none => false

/-- The JavaScript or-else idiom on a possibly-absent string, where the empty
string falls through to the fallback. -/
def jsStrOr (a : Option String) (b : String) : String :=
  match a with
  | some s => if s.data.isEmpty then b else s
  | none => b

/-! ## Filename derivation (downloadManager, src/unnamed/part_017, with the
older src/electron/services/downloadManager.ts variant for comparison) -/

/-- Membership in the INVALID_FILENAME_CHARS class. -/
def isInvalidFileChar (c : Char) : Bool :=
  c == '<' || c == '>' || c == ':' || c == '"' || c == '/' || c == '\\' ||
  c == '|' || c == '?' || c == '*'

/-- Replace every run of illegal characters with a single underscore (the
character class carries a + quantifier and the g flag). -/
def collapseInvalid : List Char → List Char
  | [] => []
  | [c] => if isInvalidFileChar c then ['_'] else [c]
  | c :: c2 :: cs =>
      if isInvalidFileChar c && isInvalidFileChar c2 then collapseInvalid (c2 :: cs)
      else (if isInvalidFileChar c then '_' else c) :: collapseInvalid (c2 :: cs)

/-- buildName inside deriveZipFilename: sanitize the raw name; an absent or
empty input yields the empty string. -/
def buildName (raw : String) : String := String.mk (collapseInvalid raw.data)

/-- Path separator test of the Node path module (win32 flavor accepts both). -/
def isPathSep (c : Char) : Bool := c == '/' || c == '\\'

/-- Model of the external Node path.basename: drop trailing separators, then
keep the part after the last separator. -/
def pathBasename (p : String) : String :=
  String.mk (((p.data.reverse.dropWhile isPathSep).takeWhile fun c => !isPathSep c).reverse)

/-- Whether the first list starts with the second. -/
def leadsWith : List Char → List Char → Bool
  | _, [] => true
  | [], _ :: _ => false
  | c :: cs, d :: ds => c == d && leadsWith cs ds

/-- Path portion after the authority of an http(s) URL; an empty remainder or
one starting at the query or fragment yields the root path. -/
def pathnameAfterAuthority (rest : List Char) : String :=
  match rest.dropWhile fun c => !(c == '/' || c == '?' || c == '#') with
  | '/' :: tail => String.mk ('/' :: tail.takeWhile fun c => !(c == '?' || c == '#'))
  | _ => "/"

/-- Model of the external WHATWG URL constructor, restricted to what the code
feeds it: for an absolute http(s) URL it returns the pathname, otherwise it
throws (none), sending deriveZipFilename to its manual fallback. -/
def urlPathname (s : String) : Option String :=
  if leadsWith s.data "https://".data then
    some (pathnameAfterAuthority (s.data.drop 8))
  else if leadsWith s.data "http://".data then
    some (pathnameAfterAuthority (s.data.drop 7))
  else none

/-- Split a character list on dashes; adjacent dashes yield empty groups. -/
def splitOnDash : List Char → List (List Char)
  | [] => [[]]
  | c :: cs =>
      if c == '-' then [] :: splitOnDash cs
      else
        match splitOnDash cs with
        | [] => [[c]]
        | g :: gs => (c :: g) :: gs

/-- Rejoin dash-separated groups. -/
def intercalateDash : List (List Char) → List Char
  | [] => []
  | [g] => g
  | g :: gs => g ++ '-' :: intercalateDash gs

/-- The anchored replace dropping a leading pair of non-empty dash-free
segments together with their trailing dashes; it matches exactly when the
string starts with two such segments each followed by a dash. -/
def stripLeadingSegs (s : String) : String :=
  match splitOnDash s.data with
  | a :: b :: rest =>
      if a.isEmpty || b.isEmpty || rest.isEmpty then s
      else String.mk (intercalateDash rest)
  | _ => s

/-- The manual query and fragment stripping of the fallback branch. -/
def beforeQueryOrFragment (s : String) : String :=
  String.mk (s.data.takeWhile fun c => !(c == '?' || c == '#'))

/-- Case-insensitive anchored .zip suffix test. -/
def endsWithZipExt (s : String) : Bool :=
  leadsWith (s.data.reverse.map Char.toLower) ['p', 'i', 'z', '.']

/-- folderName derivation: the case-insensitive anchored .zip extension is
replaced with the empty string. -/
def stripZipExt (s : String) : String :=
  if endsWithZipExt s then String.mk (s.data.take (s.data.length - 4)) else s

/-- The shared manual fallback of both deriveZipFilename variants: basename
of the query-stripped raw URL, sanitized; a timestamp-based name is the last
resort.  nowMs stands for the external Date.now(). -/
def deriveZipFallback (nowMs : Nat) (downloadUrl : String) : String :=
  if (buildName (pathBasename (beforeQueryOrFragment downloadUrl))).data.isEmpty then
    "livery-" ++ toString nowMs ++ ".zip"
  else buildName (pathBasename (beforeQueryOrFragment downloadUrl))

/-- deriveZipFilename of the current downloadManager (src/unnamed/part_017):
basename of the URL pathname, sanitized, with the leading two dash-separated
segments dropped; the manual fallback runs when URL parsing fails or the
first derivation is empty. -/
def deriveZipFilename (nowMs : Nat) (downloadUrl : String) : String :=
  match urlPathname downloadUrl with
  | some pathname =>
      if (stripLeadingSegs (buildName (pathBasename pathname))).data.isEmpty then
        deriveZipFallback nowMs downloadUrl
      else stripLeadingSegs (buildName (pathBasename pathname))
  | none => deriveZipFallback nowMs downloadUrl

/-- deriveZipFilename of the older downloadManager.ts snapshot
(src/electron/services/downloadManager.ts), identical except that it keeps
the leading segments. -/
def deriveZipFilenameOld (nowMs : Nat) (downloadUrl : String) : String :=
  match urlPathname downloadUrl with
  | some pathname =>
      if (buildName (pathBasename pathname)).data.isEmpty then
        deriveZipFallback nowMs downloadUrl
      else buildName (pathBasename pathname)
  | none => deriveZipFallback nowMs downloadUrl

/-! ## Renderer livery store (src/src/store/liveryStore.ts) -/

/-- The catalog descriptor fields the store reads. -/
structure Livery where
  id : String
  name : String
  version : Option String
deriving DecidableEq

/-- The resolution conflicting with the requested one, as computed inside
hasHighResolutionConflict. -/
def conflictingResolution (res : String) : String :=
  if res == "4K" then "8K" else "4K"

/-- hasHighResolutionConflict: some installed record matches the livery by id
or by name, targets the same simulator, and carries the conflicting
resolution. -/
def hasHighResolutionConflict (installed : List InstalledLiveryRecord)
    (livery : Livery) (res sim : String) : Bool :=
  installed.any fun e =>
    (e.liveryId == livery.id || e.originalName == livery.name) &&
    e.simulator == sim && e.resolution == conflictingResolution res

/-- The outcome object of downloadAndInstallLivery. -/
structure DownloadResult where
  success : Bool
  error : Option String
  details : Option String
  path : Option String
deriving DecidableEq

/-- Observable run of handleDownload: returned boolean, number of invocations
of the download IPC/network client, and the error message stored in state. -/
structure HandleDownloadRun where
  result : Bool
  downloadCalls : Nat
  errorMsg : Option String
deriving DecidableEq

/-- handleDownload: availability check, then the conflict rule, then the auth
token check, and only then the download client call (whose result or thrown
error is supplied as downloadOutcome). -/
def handleDownload (installed : List InstalledLiveryRecord) (livery : Livery)
    (res sim : String) (authToken : Option String) (apiAvailable : Bool)
    (downloadOutcome : Except String DownloadResult) : HandleDownloadRun :=
  if !apiAvailable then
    { result := false, downloadCalls := 0,
      errorMsg := some "Electron APIs are not available." }
  else if hasHighResolutionConflict installed livery res sim then
    { result := false, downloadCalls := 0,
      errorMsg := some "Please uninstall the other high-resolution variant (4K or 8K) before installing this one." }
  else if !(strTruthy authToken) then
    { result := false, downloadCalls := 0,
      errorMsg := some "Please sign in again to download liveries." }
  else
    match downloadOutcome with
    | .error msg => { result := false, downloadCalls := 1, errorMsg := some msg }
    | .ok r =>
        if r.success then
          { result := true, downloadCalls := 1, errorMsg := none }
        else
          { result := false, downloadCalls := 1,
            errorMsg := some (jsStrOr r.error "Download failed") }

/-- One entry of the batch body POSTed to the updates endpoint. -/
structure UpdateCheckEntry where
  liveryId : String
  currentVersion : String
deriving DecidableEq

/-- One entry of the updates-endpoint response. -/
structure RemoteUpdateEntry where
  liveryId : String
  hasUpdate : Bool
  latestVersion : Option String
  currentVersion : String
  changelog : Option String
deriving DecidableEq

/-- The enriched update descriptor the store produces. -/
structure LiveryUpdate where
  liveryId : String
  currentVersion : String
  latestVersion : String
  hasUpdate : Bool
  changelog : Option String
  liveryName : String
  installPath : Option String
  resolution : Option String
  simulator : Option String
deriving DecidableEq

/-- The request entry built per installed record: the dedicated version store
value, falling back to the embedded record version, then 1.0.0. -/
def buildUpdateRequest (localVersion : String → Option String)
    (e : InstalledLiveryRecord) : UpdateCheckEntry :=
  { liveryId := e.liveryId,
    currentVersion := jsStrOr (localVersion e.liveryId) (jsStrOr e.version "1.0.0") }

/-- Enrichment of one response entry with ledger and catalog metadata, as in
the map inside checkForUpdates. -/
def enrichUpdate (installed : List InstalledLiveryRecord) (catalog : List Livery)
    (u : RemoteUpdateEntry) : LiveryUpdate :=
  { liveryId := u.liveryId, currentVersion := u.currentVersion,
    latestVersion := jsStrOr u.latestVersion "unknown",
    hasUpdate := true, changelog := u.changelog,
    liveryName := jsStrOr ((installed.find? fun e => e.liveryId == u.liveryId).map
        fun e => e.originalName)
      (jsStrOr ((catalog.find? fun l => l.id == u.liveryId).map fun l => l.name) "Unknown"),
    installPath := (installed.find? fun e => e.liveryId == u.liveryId).map
      fun e => e.installPath,
    resolution := (installed.find? fun e => e.liveryId == u.liveryId).map
      fun e => e.resolution,
    simulator := (installed.find? fun e => e.liveryId == u.liveryId).map
      fun e => e.simulator }

/-- Observable run of checkForUpdates: the availableUpdates value stored (none
when the endpoint call failed and the catch left it untouched) and the list of
request bodies POSTed to the updates endpoint, in order. -/
structure UpdateCheckRun where
  availableUpdates : Option (List LiveryUpdate)
  requests : List (List UpdateCheckEntry)
deriving DecidableEq

/-- checkForUpdates: no version API or an empty ledger issues no request; a
non-empty ledger issues exactly one batch request carrying one entry per
installed record, then filters the response to entries flagged hasUpdate and
enriches them from the ledger and catalog. -/
def checkForUpdates (versionApiAvailable : Bool)
    (installed : List InstalledLiveryRecord) (catalog : List Livery)
    (localVersion : String → Option String) (respOk : Bool)
    (remote : List RemoteUpdateEntry) : UpdateCheckRun :=
  if !versionApiAvailable then
    { availableUpdates := none, requests := [] }
  else if installed.isEmpty then
    { availableUpdates := some [], requests := [] }
  else if respOk then
    { availableUpdates := some ((remote.filter fun u => u.hasUpdate).map
        (enrichUpdate installed catalog)),
      requests := [installed.map (buildUpdateRequest localVersion)] }
  else
    { availableUpdates := none,
      requests := [installed.map (buildUpdateRequest localVersion)] }

/-- Events observable from updateLivery, in execution order. -/
inductive UpdateEvent
  | uninstallCall (path : String)
  | downloadCall (liveryId : String)
deriving DecidableEq

/-- updateLivery: find the catalog livery, check resolution and simulator,
uninstall the old installPath when present, and only on a successful
uninstall run handleDownload for the new version.  The result pairs the
returned boolean with the ordered list of uninstall and download calls. -/
def updateLivery (catalog : List Livery) (update : LiveryUpdate)
    (uninstallOutcome : Except String UninstallOutcome) (downloadOk : Bool) :
    Bool × List UpdateEvent :=
  match catalog.find? fun l => l.id == update.liveryId with
  | none => (false, [])
  | some livery =>
      if !(strTruthy update.resolution) || !(strTruthy update.simulator) then
        (false, [])
      else
        match update.installPath with
        | some p =>
            if p.data.isEmpty then
              (downloadOk, [UpdateEvent.downloadCall livery.id])
            else
              match uninstallOutcome with
              | .error _ => (false, [UpdateEvent.uninstallCall p])
              | .ok r =>
                  if r.success then
                    (downloadOk,
                      [UpdateEvent.uninstallCall p, UpdateEvent.downloadCall livery.id])
                  else (false, [UpdateEvent.uninstallCall p])
        | none => (downloadOk, [UpdateEvent.downloadCall livery.id])

/-! ## Download pipeline (downloadManager, src/unnamed/part_017) -/

/-- RESOLVE_ATTEMPTS constant. -/
def RESOLVE_ATTEMPTS : Nat := 2

/-- DOWNLOAD_ATTEMPTS constant. -/
def DOWNLOAD_ATTEMPTS : Nat := 3

/-- Loop body of retryAsync: the per-attempt outcomes are supplied as a
function of the attempt index; on exhaustion the last error is rethrown (or
the generic one when no attempt ran).  The second component counts the
attempts made. -/
def retryGo {α : Type} (f : Nat → Except JsError α) (last : Option JsError) :
    Nat → Nat → Except JsError α × Nat
  | _, 0 => (.error (last.getD { message := "retryAsync failed", status := none }), 0)
  | i, fuel + 1 =>
      match f i with
      | .ok a => (.ok a, 1)
      | .error e =>
          match retryGo f (some e) (i + 1) fuel with
          | (r, n) => (r, n + 1)

/-- retryAsync with its attempt budget. -/
def retryAsync {α : Type} (f : Nat → Except JsError α) (attempts : Nat) :
    Except JsError α × Nat :=
  retryGo f none 0 attempts

/-- A set-like insertion into the list of paths existing on disk:
fs.createWriteStream creates (or truncates) the target file. -/
def listInsert (p : String) (disk : List String) : List String :=
  if p ∈ disk then disk else p :: disk

/-- Path deletion from the disk, as fs.remove. -/
def listRemove (p : String) (disk : List String) : List String :=
  disk.filter fun q => q != p

/-- How one downloadFile call can go: the fetch itself rejects (timeout,
network failure, or a non-2xx status turned into an error by
fetchWithTimeout), the response has no body, the body or file stream errors
mid-transfer, or the transfer completes. -/
inductive TransferAttempt
  | fetchErr (e : JsError)
  | noBody
  | streamErr (e : JsError)
  | complete
deriving DecidableEq

/-- One downloadFile call against the disk: the write stream creates the file
first; only the mid-transfer error handler deletes it before rejecting, while
a fetch-level failure or a bodyless response rejects with the created file
left in place. -/
def downloadFileStep (fp : String) (a : TransferAttempt) (disk : List String) :
    Except JsError Unit × List String :=
  match a with
  | .fetchErr e => (.error e, listInsert fp disk)
  | .noBody =>
      (.error ⟨"Download response did not include a body stream", none⟩,
        listInsert fp disk)
  | .streamErr e => (.error e, listRemove fp (listInsert fp disk))
  | .complete => (.ok (), listInsert fp disk)

/-- Result of the retried transfer: outcome, final disk, attempts made. -/
structure TransferRun where
  result : Except JsError Unit
  disk : List String
  attemptsMade : Nat
deriving DecidableEq

/-- retryAsync specialized to downloadFile, with the disk threaded through
the attempts. -/
def downloadRetryGo (fp : String) (schedule : Nat → TransferAttempt)
    (last : Option JsError) :
    Nat → Nat → List String → TransferRun
  | _, 0, disk =>
      { result := .error (last.getD { message := "retryAsync failed", status := none }),
        disk := disk, attemptsMade := 0 }
  | i, fuel + 1, disk =>
      match downloadFileStep fp (schedule i) disk with
      | (.ok _, disk2) => { result := .ok (), disk := disk2, attemptsMade := 1 }
      | (.error e, disk2) =>
          let rest := downloadRetryGo fp schedule (some e) (i + 1) fuel disk2
          { rest with attemptsMade := rest.attemptsMade + 1 }

/-- The retried download of the pipeline: DOWNLOAD_ATTEMPTS attempts of
downloadFile at the target path. -/
def downloadFileWithRetry (fp : String) (schedule : Nat → TransferAttempt)
    (disk : List String) : TransferRun :=
  downloadRetryGo fp schedule none 0 DOWNLOAD_ATTEMPTS disk

/-- Settings as the orchestrator reads them. -/
structure Settings where
  msfs2020Path : String
  msfs2024Path : String
  defaultResolution : String
  defaultSimulator : String
deriving DecidableEq

/-- The payload of the signed-URL resolver endpoint. -/
structure SignedDownloadPayload where
  downloadUrl : String
  expiresAt : String
  sizeBytes : Option Nat
  version : Option String
deriving DecidableEq

/-- The options object of downloadAndInstallLivery. -/
structure DownloadLiveryOptions where
  liveryId : String
  liveryName : String
  simulator : String
  resolution : String
  settings : Settings
  authToken : Option String
deriving DecidableEq

/-- The catch-block mapping of a thrown error to the failure outcome: the
details line exists exactly when the error carries a numeric status. -/
def failureResult (e : JsError) : DownloadResult :=
  { success := false, error := some e.message,
    details := e.status.map fun s => "Server responded with " ++ toString s,
    path := none }

/-- The simulator short code written into the ledger record. -/
def simCode (simulator : String) : String :=
  if simulator == "MSFS2024" then "FS24" else "FS20"

/-- Model of the external path.join for a separator-free segment appended to
a base folder. -/
def joinPath (base name : String) : String := base ++ "/" ++ name

/-- Environment of one orchestrator run: per-attempt outcome of the
signed-URL resolution, the fs.ensureDir outcome, the per-attempt transfer
behavior, the extraction outcome (after the AdmZip fallback), the ledger
fs.writeJson outcome, the temp-archive fs.remove outcome, and the clock.
The tracking call is caught unconditionally and has no observable effect. -/
structure OrchestratorEnv where
  resolveAttempt : Nat → Except JsError SignedDownloadPayload
  ensureDirOutcome : Except JsError Unit
  transferAttempt : Nat → TransferAttempt
  extractOutcome : Except JsError Unit
  ledgerWriteOutcome : Except JsError Unit
  removeZipOutcome : Except JsError Unit
  nowMs : Nat
  nowIso : String

/-- Observable result of one orchestrator run: the settled promise (error
means the rejection escaped the function), the in-memory ledger cache, the
ledger file contents, and the disk. -/
structure OrchestratorRun where
  outcome : Except JsError DownloadResult
  ledger : InstalledLiveriesData
  persisted : InstalledLiveriesData
  disk : List String
deriving DecidableEq

/-- The try block of downloadAndInstallLivery: retried transfer, extraction,
ledger record (whose saveData catches its own write error and resolves
anyway, persisting nothing), temp-archive removal, tracking (caught), success.
Every thrown error in here is caught and mapped through failureResult. -/
def installAttempt (env : OrchestratorEnv) (opts : DownloadLiveryOptions)
    (baseFolder downloadUrl : String) (ledger persisted : InstalledLiveriesData)
    (disk : List String) : OrchestratorRun :=
  match downloadFileWithRetry (joinPath baseFolder (deriveZipFilename env.nowMs downloadUrl))
      env.transferAttempt disk with
  | run =>
      match run.result with
      | .error e =>
          { outcome := .ok (failureResult e), ledger := ledger,
            persisted := persisted, disk := run.disk }
      | .ok _ =>
          match env.extractOutcome with
          | .error e =>
              { outcome := .ok (failureResult e), ledger := ledger,
                persisted := persisted, disk := run.disk }
          | .ok _ =>
              match listInsert (joinPath baseFolder
                  (stripZipExt (deriveZipFilename env.nowMs downloadUrl))) run.disk with
              | disk2 =>
                  match recordInstallation
                      { liveryId := opts.liveryId, originalName := opts.liveryName,
                        folderName := stripZipExt (deriveZipFilename env.nowMs downloadUrl),
                        installPath := joinPath baseFolder
                          (stripZipExt (deriveZipFilename env.nowMs downloadUrl)),
                        resolution := opts.resolution,
                        simulator := simCode opts.simulator,
                        version := some "1.0.0" } env.nowIso ledger with
                  | newLedger =>
                      match (match env.ledgerWriteOutcome with
                        | .ok _ => newLedger
                        | .error _ => persisted) with
                      | newPersisted =>
                          match env.removeZipOutcome with
                          | .error e =>
                              { outcome := .ok (failureResult e), ledger := newLedger,
                                persisted := newPersisted, disk := disk2 }
                          | .ok _ =>
                              { outcome := .ok ⟨true, none, none,
                                  some (joinPath baseFolder
                                    (stripZipExt (deriveZipFilename env.nowMs downloadUrl)))⟩,
                                ledger := newLedger, persisted := newPersisted,
                                disk := listRemove (joinPath baseFolder
                                  (deriveZipFilename env.nowMs downloadUrl)) disk2 }

/-- The base folder conditional: the MSFS2024 path when that simulator is
requested and its path is set, the MSFS2020 path otherwise. -/
def chooseBaseFolder (opts : DownloadLiveryOptions) : String :=
  if opts.simulator == "MSFS2024" && !opts.settings.msfs2024Path.data.isEmpty
  then opts.settings.msfs2024Path else opts.settings.msfs2020Path

/-- downloadAndInstallLivery of src/unnamed/part_017.  The missing-token and
missing-path checks return outcome objects; the signed-URL resolution retry
and fs.ensureDir run before the try block, so their rejections escape the
function (outcome is the error side). -/
def downloadAndInstallLivery (env : OrchestratorEnv) (opts : DownloadLiveryOptions)
    (ledger persisted : InstalledLiveriesData) (disk : List String) : OrchestratorRun :=
  if !(strTruthy opts.authToken) then
    { outcome := .ok ⟨false,
        some "Missing authentication token. Please sign in again.", none, none⟩,
      ledger := ledger, persisted := persisted, disk := disk }
  else
    match (retryAsync env.resolveAttempt RESOLVE_ATTEMPTS).1 with
    | .error e =>
        { outcome := .error e, ledger := ledger, persisted := persisted, disk := disk }
    | .ok signed =>
        if (chooseBaseFolder opts).data.isEmpty then
          { outcome := .ok ⟨false,
              some "No simulator path configured. Please set it in Settings.",
              none, some ""⟩,
            ledger := ledger, persisted := persisted, disk := disk }
        else
          match env.ensureDirOutcome with
          | .error e =>
              { outcome := .error e, ledger := ledger, persisted := persisted,
                disk := disk }
          | .ok _ =>
              installAttempt env opts (chooseBaseFolder opts) signed.downloadUrl
                ledger persisted disk

/-- Sample settings with an MSFS2020 community folder configured. -/
def sampleSettings : Settings :=
  { msfs2020Path := "/community", msfs2024Path := "",
    defaultResolution := "4K", defaultSimulator := "FS20" }

/-- Sample orchestrator options for an authenticated MSFS2020 4K install. -/
def sampleOptions : DownloadLiveryOptions :=
  { liveryId := "L1", liveryName := "BAV A320", simulator := "MSFS2020",
    resolution := "4K", settings := sampleSettings, authToken := some "token" }

/-- Sample resolved signed download payload. -/
def sampleSigned : SignedDownloadPayload :=
  { downloadUrl := "https://cdn.example.com/pkg/abc123-boeing-737-4k.zip?sig=xyz",
    expiresAt := "2026-01-01T00:00:00Z", sizeBytes := none, version := none }

/-- Environment of a fully successful run. -/
def baseEnv : OrchestratorEnv :=
  { resolveAttempt := fun _ => .ok sampleSigned, ensureDirOutcome := .ok (),
    transferAttempt := fun _ => .complete, extractOutcome := .ok (),
    ledgerWriteOutcome := .ok (), removeZipOutcome := .ok (),
    nowMs := 0, nowIso := "t" }

/-- The typed HTTP 500 failure fetchWithTimeout raises via createRequestError. -/
def httpError500 : JsError := ⟨"Request to endpoint failed with status 500", some 500⟩

/-- A plain disk-permission error without an HTTP status. -/
def eaccesError : JsError := ⟨"EACCES: permission denied", none⟩

/-- Environment whose signed-URL resolution fails on every attempt with an
HTTP 500 error from fetchWithTimeout. -/
def resolveFailEnv : OrchestratorEnv :=
  { baseEnv with resolveAttempt := fun _ => .error httpError500 }

/-- Environment whose ledger write fails after a successful extraction. -/
def ledgerWriteFailEnv : OrchestratorEnv :=
  { baseEnv with ledgerWriteOutcome := .error eaccesError }

/-- Sample record used by concrete witnesses. -/
def sampleRecA : NewInstallRecord :=
  { liveryId := "L1", originalName := "BAV A320", folderName := "a320-4k",
    installPath := "/community/a320-4k", resolution := "4K", simulator := "FS20",
    version := some "1.0.0" }

/-- Sample record with the same identity triple as sampleRecA but a different
installPath. -/
def sampleRecB : NewInstallRecord :=
  { liveryId := "L1", originalName := "BAV A320", folderName := "a320-4k-v2",
    installPath := "/community/a320-4k-v2", resolution := "4K", simulator := "FS20",
    version := some "1.1.0" }

/-- Sample catalog livery matching sampleRecA by id and name. -/
def sampleLivery : Livery :=
  { id := "L1", name := "BAV A320", version := some "1.0.0" }

/-- Sample successful download outcome used by witnesses. -/
def okDownloadResult : DownloadResult :=
  { success := true, error := none, details := none, path := none }

/-- Sample remote update-check response entry for sampleLivery. -/
def sampleRemoteUpdate : RemoteUpdateEntry :=
  { liveryId := "L1", hasUpdate := true, latestVersion := some "2.0.0",
    currentVersion := "1.0.0", changelog := none }

/-- Sample update descriptor with a known installPath. -/
def sampleUpdate : LiveryUpdate :=
  { liveryId := "L1", currentVersion := "1.0.0", latestVersion := "2.0.0",
    hasUpdate := true, changelog := none, liveryName := "BAV A320",
    installPath := some "/community/a320-4k", resolution := some "4K",
    simulator := some "FS20" }

end BAV

namespace BAV

/-! ## Helper lemmas -/

theorem filter_filter_not {α : Type} (p : α → Bool) (l : List α) :
    (l.filter fun e => !(p e)).filter p = [] := by
  induction l with
  | nil => rfl
  | cons x xs ih =>
      by_cases hx : p x <;> simp [List.filter_cons, hx, ih]

theorem filter_idem {α : Type} (p : α → Bool) (l : List α) :
    (l.filter p).filter p = l.filter p := by
  induction l with
  | nil => rfl
  | cons x xs ih =>
      by_cases hx : p x <;> simp [List.filter_cons, hx, ih]

theorem matchesTriple_withDate_self (r : NewInstallRecord) (now : String) :
    matchesTriple r.originalName r.resolution r.simulator (r.withDate now) = true := by
  simp [matchesTriple, NewInstallRecord.withDate]

/-- The records matching the upserted triple after recordInstallation are
exactly the new record. -/
theorem recordInstallation_filter_self (r : NewInstallRecord) (now : String)
    (d : InstalledLiveriesData) :
    (recordInstallation r now d).liveries.filter
        (matchesTriple r.originalName r.resolution r.simulator) = [r.withDate now] := by
  simp [recordInstallation, List.filter_append, filter_filter_not,
    matchesTriple_withDate_self]

theorem recordInstallation_preserves_atMostOne (r : NewInstallRecord) (now : String)
    (d : InstalledLiveriesData) (h : AtMostOnePerTriple d) :
    AtMostOnePerTriple (recordInstallation r now d) := by
  intro name res sim
  by_cases heq : name = r.originalName ∧ res = r.resolution ∧ sim = r.simulator
  · obtain ⟨h1, h2, h3⟩ := heq
    subst h1; subst h2; subst h3
    rw [recordInstallation_filter_self]
    simp
  · have hnew : matchesTriple name res sim (r.withDate now) = false := by
      rcases not_and_or.mp heq with h1 | h23
      · have : (r.originalName == name) = false :=
          beq_eq_false_iff_ne.mpr fun h => h1 h.symm
        simp [matchesTriple, NewInstallRecord.withDate, this]
      · rcases not_and_or.mp h23 with h2 | h3
        · have : (r.resolution == res) = false :=
            beq_eq_false_iff_ne.mpr fun h => h2 h.symm
          simp [matchesTriple, NewInstallRecord.withDate, this]
        · have : (r.simulator == sim) = false :=
            beq_eq_false_iff_ne.mpr fun h => h3 h.symm
          simp [matchesTriple, NewInstallRecord.withDate, this]
    have hsub : List.Sublist
        ((recordInstallation r now d).liveries.filter (matchesTriple name res sim))
        (d.liveries.filter (matchesTriple name res sim)) := by
      simp only [recordInstallation, List.filter_append]
      have hone : (List.filter (matchesTriple name res sim) [r.withDate now]) = [] := by
        simp [List.filter_cons, hnew]
      rw [hone, List.append_nil]
      exact List.Sublist.filter _ (List.filter_sublist _)
    exact le_trans hsub.length_le (h name res sim)

theorem upsertAll_atMostOne (rs : List (NewInstallRecord × String)) :
    AtMostOnePerTriple (upsertAll rs emptyData) := by
  have base : AtMostOnePerTriple emptyData := by
    intro name res sim; simp [emptyData]
  suffices h : ∀ (rs : List (NewInstallRecord × String)) (d : InstalledLiveriesData),
      AtMostOnePerTriple d → AtMostOnePerTriple (upsertAll rs d) from
    h rs emptyData base
  intro rs
  induction rs with
  | nil => intro d hd; exact hd
  | cons rt rest ih =>
      intro d hd
      exact ih _ (recordInstallation_preserves_atMostOne rt.1 rt.2 d hd)

theorem eraseP_length_of_find? {α : Type} (p : α → Bool) (l : List α)
    (r : α) (h : l.find? p = some r) :
    (l.eraseP p).length + 1 = l.length := by
  induction l with
  | nil => simp at h
  | cons x xs ih =>
      by_cases hx : p x
      · simp [List.eraseP_cons, hx]
      · rw [List.find?_cons_of_neg _ (by simp [hx])] at h
        simp [List.eraseP_cons, hx, ih h]

theorem removeInstallationByPath_some_length (normalize : String → String)
    (p : String) (d : InstalledLiveriesData) (r : InstalledLiveryRecord)
    (h : (removeInstallationByPath normalize p d).1 = some r) :
    (removeInstallationByPath normalize p d).2.liveries.length + 1
        = d.liveries.length := by
  unfold removeInstallationByPath at h ⊢
  cases hfind : d.liveries.find?
      (fun e => pathKey normalize e.installPath == pathKey normalize p) with
  | none => rw [hfind] at h; simp at h
  | some r' =>
      simp only [hfind]
      exact eraseP_length_of_find? _ _ r' hfind

theorem removeInstallationByPath_none_unchanged (normalize : String → String)
    (p : String) (d : InstalledLiveriesData)
    (h : (removeInstallationByPath normalize p d).1 = none) :
    (removeInstallationByPath normalize p d).2 = d := by
  unfold removeInstallationByPath at h ⊢
  cases hfind : d.liveries.find?
      (fun e => pathKey normalize e.installPath == pathKey normalize p) with
  | none => simp only [hfind]
  | some r' => rw [hfind] at h; simp at h

/-! ## Claim theorems for the ledger -/

/-- C4: upsert semantics of the ledger.  Calling recordInstallation twice with
the same identity triple but different installPath leaves exactly one record
for that triple, carrying the installPath of the second call; and every
sequence of upserts starting from the empty ledger keeps at most one record
per (originalName, resolution, simulator) triple. -/
theorem recordInstallation_upsert_idempotent
    (d : InstalledLiveriesData) (r₁ r₂ : NewInstallRecord) (t₁ t₂ : String)
    (_hname : r₁.originalName = r₂.originalName)
    (_hres : r₁.resolution = r₂.resolution)
    (_hsim : r₁.simulator = r₂.simulator) :
    ((recordInstallation r₂ t₂ (recordInstallation r₁ t₁ d)).liveries.filter
        (matchesTriple r₂.originalName r₂.resolution r₂.simulator)).map
        (fun e => e.installPath) = [r₂.installPath] ∧
    (∀ rs : List (NewInstallRecord × String), AtMostOnePerTriple (upsertAll rs emptyData)) := by
  constructor
  · rw [recordInstallation_filter_self]
    simp [NewInstallRecord.withDate]
  · exact upsertAll_atMostOne

/-- Witness for C4 at a concrete double upsert. -/
theorem recordInstallation_upsert_idempotent_witness :
    ((recordInstallation sampleRecB "t2" (recordInstallation sampleRecA "t1"
        emptyData)).liveries.filter
        (matchesTriple sampleRecB.originalName sampleRecB.resolution
          sampleRecB.simulator)).map
        (fun e => e.installPath) = [sampleRecB.installPath] :=
  (recordInstallation_upsert_idempotent emptyData sampleRecA sampleRecB "t1" "t2"
    rfl rfl rfl).1

/-- C9: validateInstallations keeps exactly the records whose installPath
exists on disk, in their original relative order, and is a fixed point on its
own output. -/
theorem validateInstallations_convergence (pathExists : String → Bool)
    (d : InstalledLiveriesData) :
    (validateInstallations pathExists d).liveries.length
        = d.liveries.countP (fun e => pathExists e.installPath) ∧
    List.Sublist (validateInstallations pathExists d).liveries d.liveries ∧
    (∀ e, e ∈ (validateInstallations pathExists d).liveries ↔
        e ∈ d.liveries ∧ pathExists e.installPath = true) ∧
    validateInstallations pathExists (validateInstallations pathExists d)
        = validateInstallations pathExists d := by
  refine ⟨?_, ?_, ?_, ?_⟩
  · exact (List.countP_eq_length_filter _ _).symm
  · exact List.filter_sublist _
  · intro e; simp [validateInstallations, List.mem_filter]
  · simp only [validateInstallations]
    congr 1
    exact filter_idem _ _

/-- C10: the uninstall-by-path handler removes the matching ledger record
before attempting folder deletion, so a thrown deletion error yields success
false with the record nevertheless removed; and when no record matches,
removeInstallationByPath returns none and leaves the ledger unchanged. -/
theorem uninstallLiveryHandler_ledger_first (normalize : String → String)
    (p m : String) (d : InstalledLiveriesData) :
    (∀ r, (removeInstallationByPath normalize p d).1 = some r →
        (uninstallLiveryHandler normalize true (.error m) p d).1.success = false ∧
        (uninstallLiveryHandler normalize true (.error m) p d).1.error = some m ∧
        (uninstallLiveryHandler normalize true (.error m) p d).2.liveries.length + 1
            = d.liveries.length) ∧
    ((removeInstallationByPath normalize p d).1 = none →
        (removeInstallationByPath normalize p d).2 = d) := by
  constructor
  · intro r hr
    exact ⟨rfl, rfl, removeInstallationByPath_some_length normalize p d r hr⟩
  · exact removeInstallationByPath_none_unchanged normalize p d

/-- Witness for C10: a failing folder deletion on a one-record ledger returns
success false while the record is already gone. -/
theorem uninstallLiveryHandler_ledger_first_witness :
    (uninstallLiveryHandler id true (.error "EPERM") "/community/a320-4k"
        { version := 1, liveries := [sampleRecA.withDate "t0"] }).1.success = false ∧
    (uninstallLiveryHandler id true (.error "EPERM") "/community/a320-4k"
        { version := 1, liveries := [sampleRecA.withDate "t0"] }).1.error = some "EPERM" ∧
    (uninstallLiveryHandler id true (.error "EPERM") "/community/a320-4k"
        { version := 1, liveries := [sampleRecA.withDate "t0"] }).2.liveries.length + 1
        = ({ version := 1, liveries := [sampleRecA.withDate "t0"] } :
            InstalledLiveriesData).liveries.length :=
  (uninstallLiveryHandler_ledger_first id "/community/a320-4k" "EPERM"
    { version := 1, liveries := [sampleRecA.withDate "t0"] }).1
    (sampleRecA.withDate "t0") (by decide)

theorem jsStrOr_some_of_ne_empty (s b : String) (h : s ≠ "") :
    jsStrOr (some s) b = s := by
  have hd : s.data.isEmpty = false := by
    cases s with
    | mk l =>
        cases l with
        | nil => exact absurd rfl h
        | cons c cs => rfl
  simp [jsStrOr, hd]

/-! ## Claim theorems for filename derivation -/

/-- C2 counterexample: on the sample resolved URL, the filename derivation of
the current downloadManager followed by extension stripping does not yield
abc123-boeing-737-4k, because the function also drops the leading two
dash-separated segments of the basename. -/
theorem deriveZipFilename_sample_not_claimed_name :
    stripZipExt (deriveZipFilename 0
        "https://cdn.example.com/pkg/abc123-boeing-737-4k.zip?sig=xyz")
      ≠ "abc123-boeing-737-4k" := by decide

/-- C2 amended: on the sample resolved URL the current downloadManager
derivation yields 737-4k.zip, hence folder name 737-4k; only the older
downloadManager.ts variant, which keeps the leading segments, yields
abc123-boeing-737-4k. -/
theorem deriveZipFilename_sample_url :
    deriveZipFilename 0 "https://cdn.example.com/pkg/abc123-boeing-737-4k.zip?sig=xyz"
      = "737-4k.zip" ∧
    stripZipExt (deriveZipFilename 0
        "https://cdn.example.com/pkg/abc123-boeing-737-4k.zip?sig=xyz") = "737-4k" ∧
    deriveZipFilenameOld 0 "https://cdn.example.com/pkg/abc123-boeing-737-4k.zip?sig=xyz"
      = "abc123-boeing-737-4k.zip" ∧
    stripZipExt (deriveZipFilenameOld 0
        "https://cdn.example.com/pkg/abc123-boeing-737-4k.zip?sig=xyz")
      = "abc123-boeing-737-4k" := by decide

/-! ## Claim theorems for the renderer store -/

/-- C5: a request to install one high-resolution variant while the other
variant is installed for the same livery and simulator is rejected by
handleDownload with a false result before the download client is invoked,
so zero network calls are made; and 4K and 8K are mutually conflicting. -/
theorem handleDownload_conflict_rejected_without_network
    (installed : List InstalledLiveryRecord) (livery : Livery) (res sim : String)
    (authToken : Option String) (downloadOutcome : Except String DownloadResult)
    (hconf : ∃ e ∈ installed,
        (e.liveryId = livery.id ∨ e.originalName = livery.name) ∧
        e.simulator = sim ∧ e.resolution = conflictingResolution res) :
    (handleDownload installed livery res sim authToken true downloadOutcome).result
        = false ∧
    (handleDownload installed livery res sim authToken true downloadOutcome).downloadCalls
        = 0 ∧
    conflictingResolution "4K" = "8K" ∧ conflictingResolution "8K" = "4K" := by
  have hb : hasHighResolutionConflict installed livery res sim = true := by
    obtain ⟨e, he, hm, hs, hr⟩ := hconf
    unfold hasHighResolutionConflict
    rw [List.any_eq_true]
    refine ⟨e, he, ?_⟩
    rcases hm with h | h <;> simp [h, hs, hr]
  refine ⟨?_, ?_, by decide, by decide⟩ <;> simp [handleDownload, hb]

/-- Witness for C5: an installed 4K record blocks the 8K request with zero
download-client calls. -/
theorem handleDownload_conflict_rejected_without_network_witness :
    (handleDownload [sampleRecA.withDate "t0"] sampleLivery "8K" "FS20" (some "tok")
        true (.ok okDownloadResult)).result = false ∧
    (handleDownload [sampleRecA.withDate "t0"] sampleLivery "8K" "FS20" (some "tok")
        true (.ok okDownloadResult)).downloadCalls = 0 := by
  have h := handleDownload_conflict_rejected_without_network
    [sampleRecA.withDate "t0"] sampleLivery "8K" "FS20" (some "tok")
    (.ok okDownloadResult)
    ⟨sampleRecA.withDate "t0", by decide, by decide⟩
  exact ⟨h.1, h.2.1⟩

/-- C7: for a non-empty ledger, checkForUpdates sends exactly one request to
the updates endpoint, carrying one (liveryId, currentVersion) pair per
installed record; the stored result keeps only response entries flagged
hasUpdate, each enriched with the display name and install path resolved from
the ledger. -/
theorem checkForUpdates_single_batch
    (installed : List InstalledLiveryRecord) (catalog : List Livery)
    (localVersion : String → Option String) (remote : List RemoteUpdateEntry)
    (hne : installed ≠ []) :
    (checkForUpdates true installed catalog localVersion true remote).requests
        = [installed.map (buildUpdateRequest localVersion)] ∧
    (checkForUpdates true installed catalog localVersion true remote).requests.length
        = 1 ∧
    (checkForUpdates true installed catalog localVersion true remote).availableUpdates
        = some ((remote.filter fun u => u.hasUpdate).map (enrichUpdate installed catalog)) ∧
    (∀ us, (checkForUpdates true installed catalog localVersion true remote).availableUpdates
          = some us →
        ∀ u ∈ us, u.hasUpdate = true ∧
          ∀ r, installed.find? (fun e => e.liveryId == u.liveryId) = some r →
            r.originalName ≠ "" →
              u.liveryName = r.originalName ∧ u.installPath = some r.installPath ∧
              u.resolution = some r.resolution ∧ u.simulator = some r.simulator) := by
  have hempty : installed.isEmpty = false := by
    cases installed with
    | nil => exact absurd rfl hne
    | cons x xs => rfl
  refine ⟨by simp [checkForUpdates, hempty], by simp [checkForUpdates, hempty],
    by simp [checkForUpdates, hempty], ?_⟩
  intro us hus u hu
  have h3 : (checkForUpdates true installed catalog localVersion true remote).availableUpdates
      = some ((remote.filter fun u => u.hasUpdate).map (enrichUpdate installed catalog)) := by
    simp [checkForUpdates, hempty]
  rw [h3] at hus
  have hus2 : us = (remote.filter fun u => u.hasUpdate).map (enrichUpdate installed catalog) :=
    (Option.some_inj.mp hus).symm
  subst hus2
  obtain ⟨v, hv, rfl⟩ := List.mem_map.mp hu
  refine ⟨rfl, ?_⟩
  intro r hr hname
  have hr' : installed.find? (fun e => e.liveryId == v.liveryId) = some r := hr
  simp only [enrichUpdate]
  rw [hr']
  exact ⟨jsStrOr_some_of_ne_empty _ _ hname, rfl, rfl, rfl⟩

/-- Witness for C7 on a one-record ledger. -/
theorem checkForUpdates_single_batch_witness :
    (checkForUpdates true [sampleRecA.withDate "t0"] [sampleLivery] (fun _ => none)
        true [sampleRemoteUpdate]).requests.length = 1 :=
  (checkForUpdates_single_batch [sampleRecA.withDate "t0"] [sampleLivery]
    (fun _ => none) [sampleRemoteUpdate] (by decide)).2.1

/-- C8: updateLivery with a known installPath performs the uninstall call
first; when the uninstall fails (thrown error or success false) it returns
false with no download call made, and when the uninstall succeeds the
download call happens strictly after the uninstall call. -/
theorem updateLivery_uninstall_before_download
    (catalog : List Livery) (update : LiveryUpdate)
    (uninstallOutcome : Except String UninstallOutcome) (downloadOk : Bool)
    (livery : Livery) (p : String)
    (hfind : catalog.find? (fun l => l.id == update.liveryId) = some livery)
    (hres : strTruthy update.resolution = true)
    (hsim : strTruthy update.simulator = true)
    (hpath : update.installPath = some p)
    (hp : p.data.isEmpty = false) :
    (∀ m, uninstallOutcome = .error m →
        updateLivery catalog update uninstallOutcome downloadOk
          = (false, [UpdateEvent.uninstallCall p])) ∧
    (∀ r, uninstallOutcome = .ok r → r.success = false →
        updateLivery catalog update uninstallOutcome downloadOk
          = (false, [UpdateEvent.uninstallCall p])) ∧
    (∀ r, uninstallOutcome = .ok r → r.success = true →
        updateLivery catalog update uninstallOutcome downloadOk
          = (downloadOk,
              [UpdateEvent.uninstallCall p, UpdateEvent.downloadCall livery.id])) := by
  refine ⟨?_, ?_, ?_⟩
  · intro m hm; subst hm
    simp [updateLivery, hfind, hres, hsim, hpath, hp]
  · intro r hr hs; subst hr
    simp [updateLivery, hfind, hres, hsim, hpath, hp, hs]
  · intro r hr hs; subst hr
    simp [updateLivery, hfind, hres, hsim, hpath, hp, hs]

/-! ## Helper lemmas for the download pipeline -/

theorem not_mem_listRemove_self (p : String) (l : List String) :
    p ∉ listRemove p l := by
  simp [listRemove, List.mem_filter]

theorem mem_listInsert_self (p : String) (l : List String) :
    p ∈ listInsert p l := by
  by_cases h : p ∈ l <;> simp [listInsert, h]

theorem mem_listRemove_of_ne (p q : String) (l : List String)
    (h1 : p ∈ l) (h2 : p ≠ q) : p ∈ listRemove q l := by
  simp [listRemove, List.mem_filter, h1, h2]

theorem joinPath_ne_of_ne (b x y : String) (h : x ≠ y) :
    joinPath b x ≠ joinPath b y := by
  intro hc
  apply h
  have hd : (b ++ "/").data ++ x.data = (b ++ "/").data ++ y.data :=
    congrArg String.data hc
  have hxy : x.data = y.data := List.append_cancel_left hd
  cases x with
  | mk xs =>
      cases y with
      | mk ys => exact congrArg String.mk hxy

theorem installAttempt_outcome_isOk (env : OrchestratorEnv)
    (opts : DownloadLiveryOptions) (b u : String)
    (ledger persisted : InstalledLiveriesData) (disk : List String) :
    (installAttempt env opts b u ledger persisted disk).outcome.isOk = true := by
  cases hrun : (downloadFileWithRetry (joinPath b (deriveZipFilename env.nowMs u))
      env.transferAttempt disk).result with
  | error e => simp [installAttempt, hrun, Except.isOk, Except.toBool]
  | ok a =>
      cases hext : env.extractOutcome with
      | error e => simp [installAttempt, hrun, hext, Except.isOk, Except.toBool]
      | ok a2 =>
          cases hrm : env.removeZipOutcome with
          | error e => simp [installAttempt, hrun, hext, hrm, Except.isOk, Except.toBool]
          | ok a3 => simp [installAttempt, hrun, hext, hrm, Except.isOk, Except.toBool]

/-! ## Claim theorems for the download pipeline -/

/-- C3 counterexample: a download whose fetch rejects on every attempt (for
example a timeout before the body stream starts) makes its 3 attempts but
leaves the file created by the write stream on disk after the final failure,
because only the mid-transfer error handler deletes the partial file. -/
theorem downloadFileWithRetry_fetch_failure_leaves_file :
    (downloadFileWithRetry "/community/737-4k.zip"
        (fun _ => .fetchErr ⟨"fetch failed", none⟩) []).attemptsMade = 3 ∧
    (downloadFileWithRetry "/community/737-4k.zip"
        (fun _ => .fetchErr ⟨"fetch failed", none⟩) []).disk
      = ["/community/737-4k.zip"] ∧
    (downloadFileWithRetry "/community/737-4k.zip"
        (fun _ => .fetchErr ⟨"fetch failed", none⟩) []).result
      = .error ⟨"fetch failed", none⟩ := by decide

/-- C3 amended: a download failing during streaming on every attempt makes
exactly 3 attempts, surfaces the last error, and leaves no partial file,
since each streaming failure deletes the file before rejecting; the
no-partial-file guarantee holds for streaming failures, while a fetch-level
failure before the stream starts leaves the created file behind. -/
theorem downloadFileWithRetry_stream_failure_bounds
    (fp : String) (schedule : Nat → TransferAttempt) (disk : List String)
    (e0 e1 e2 : JsError)
    (h0 : schedule 0 = .streamErr e0) (h1 : schedule 1 = .streamErr e1)
    (h2 : schedule 2 = .streamErr e2) :
    (downloadFileWithRetry fp schedule disk).attemptsMade = 3 ∧
    (downloadFileWithRetry fp schedule disk).result = .error e2 ∧
    fp ∉ (downloadFileWithRetry fp schedule disk).disk ∧
    (∀ e d, fp ∉ (downloadFileStep fp (.streamErr e) d).2) := by
  have hrem : ∀ d, fp ∉ listRemove fp d := fun d => not_mem_listRemove_self fp d
  have key : downloadFileWithRetry fp schedule disk =
      { result := .error e2,
        disk := listRemove fp (listInsert fp (listRemove fp (listInsert fp
          (listRemove fp (listInsert fp disk))))),
        attemptsMade := 3 } := by
    show downloadRetryGo fp schedule none 0 3 disk = _
    rw [show (3 : Nat) = 2 + 1 from rfl, downloadRetryGo, h0]
    simp only [downloadFileStep]
    rw [show (2 : Nat) = 1 + 1 from rfl, downloadRetryGo, h1]
    simp only [downloadFileStep]
    rw [show (1 : Nat) = 0 + 1 from rfl, downloadRetryGo, h2]
    simp only [downloadFileStep, downloadRetryGo]
    rfl
  rw [key]
  exact ⟨rfl, rfl, hrem _, fun e d => hrem _⟩

/-- Witness for C3 at a concrete stream-failure schedule. -/
theorem downloadFileWithRetry_stream_failure_bounds_witness :
    (downloadFileWithRetry "/community/737-4k.zip"
        (fun _ => .streamErr ⟨"stream reset", none⟩) []).attemptsMade = 3 ∧
    (downloadFileWithRetry "/community/737-4k.zip"
        (fun _ => .streamErr ⟨"stream reset", none⟩) []).result
      = .error ⟨"stream reset", none⟩ ∧
    "/community/737-4k.zip" ∉ (downloadFileWithRetry "/community/737-4k.zip"
        (fun _ => .streamErr ⟨"stream reset", none⟩) []).disk := by
  have h := downloadFileWithRetry_stream_failure_bounds "/community/737-4k.zip"
    (fun _ => .streamErr ⟨"stream reset", none⟩) [] ⟨"stream reset", none⟩
    ⟨"stream reset", none⟩ ⟨"stream reset", none⟩ rfl rfl rfl
  exact ⟨h.1, h.2.1, h.2.2.1⟩

/-- C1 counterexample: when the signed-URL resolution fails on both of its
attempts, the rejection escapes downloadAndInstallLivery instead of being
returned as an outcome object. -/
theorem downloadAndInstallLivery_resolution_failure_escapes :
    (downloadAndInstallLivery resolveFailEnv sampleOptions emptyData emptyData
        []).outcome = .error httpError500 := by decide

/-- C1 amended: once the signed-URL resolution retry has succeeded (and the
fs.ensureDir call did not throw), every failure resolves to a returned
outcome object, the catch block maps a thrown error to success false, and the
details line reads Server responded with the code exactly when the error
carries an HTTP status; a resolution failure after its retries, however,
escapes as a rejected promise (see the counterexample). -/
theorem downloadAndInstallLivery_no_throw_after_resolution
    (env : OrchestratorEnv) (opts : DownloadLiveryOptions)
    (ledger persisted : InstalledLiveriesData) (disk : List String)
    (signed : SignedDownloadPayload)
    (hres : (retryAsync env.resolveAttempt RESOLVE_ATTEMPTS).1 = .ok signed)
    (hdir : env.ensureDirOutcome = .ok ()) :
    (downloadAndInstallLivery env opts ledger persisted disk).outcome.isOk = true ∧
    (∀ e : JsError, (failureResult e).success = false ∧
        ((failureResult e).details.isSome ↔ e.status.isSome) ∧
        ∀ c, e.status = some c →
          (failureResult e).details = some ("Server responded with " ++ toString c)) := by
  constructor
  · unfold downloadAndInstallLivery
    by_cases htok : strTruthy opts.authToken = true
    · simp only [htok, Bool.not_true, Bool.false_eq_true, if_false, hres]
      split
      · rfl
      · rw [hdir]
        exact installAttempt_outcome_isOk env opts (chooseBaseFolder opts)
          signed.downloadUrl ledger persisted disk
    · have hf : strTruthy opts.authToken = false := by
        revert htok
        cases strTruthy opts.authToken <;> simp
      simp only [hf, Bool.not_false, if_true]
      rfl
  · intro e
    refine ⟨rfl, ?_, ?_⟩
    · cases hs : e.status <;> simp [failureResult, hs]
    · intro c hc
      simp [failureResult, hc]

/-- Witness for C1 at a fully successful environment. -/
theorem downloadAndInstallLivery_no_throw_after_resolution_witness :
    (downloadAndInstallLivery baseEnv sampleOptions emptyData emptyData
        []).outcome.isOk = true :=
  (downloadAndInstallLivery_no_throw_after_resolution baseEnv sampleOptions
    emptyData emptyData [] sampleSigned rfl rfl).1

/-- C6 counterexample: with the ledger write failing after a successful
extraction, the pipeline reports plain success and persists nothing; no
error of any kind reaches the returned outcome. -/
theorem downloadAndInstallLivery_ledger_write_failure_reports_success :
    (downloadAndInstallLivery ledgerWriteFailEnv sampleOptions emptyData emptyData
        []).outcome = .ok ⟨true, none, none, some "/community/737-4k"⟩ ∧
    (downloadAndInstallLivery ledgerWriteFailEnv sampleOptions emptyData emptyData
        []).persisted = emptyData := by decide

/-- C6 amended: a ledger write failure after a successful extraction is
swallowed inside saveData (which logs and resolves), so the install reports
plain success, the ledger file keeps its previous contents, and the
extracted files stay on disk (no rollback). -/
theorem installAttempt_ledger_write_swallowed
    (env : OrchestratorEnv) (opts : DownloadLiveryOptions) (b u : String)
    (ledger persisted : InstalledLiveriesData) (disk : List String) (e : JsError)
    (hrun : (downloadFileWithRetry (joinPath b (deriveZipFilename env.nowMs u))
        env.transferAttempt disk).result = .ok ())
    (hext : env.extractOutcome = .ok ())
    (hrm : env.removeZipOutcome = .ok ())
    (hwrite : env.ledgerWriteOutcome = .error e)
    (hne : stripZipExt (deriveZipFilename env.nowMs u) ≠ deriveZipFilename env.nowMs u) :
    (installAttempt env opts b u ledger persisted disk).outcome
      = .ok ⟨true, none, none,
          some (joinPath b (stripZipExt (deriveZipFilename env.nowMs u)))⟩ ∧
    (installAttempt env opts b u ledger persisted disk).persisted = persisted ∧
    joinPath b (stripZipExt (deriveZipFilename env.nowMs u))
      ∈ (installAttempt env opts b u ledger persisted disk).disk := by
  refine ⟨?_, ?_, ?_⟩
  · simp [installAttempt, hrun, hext, hrm, hwrite]
  · simp [installAttempt, hrun, hext, hrm, hwrite]
  · simp only [installAttempt, hrun, hext, hrm, hwrite]
    exact mem_listRemove_of_ne _ _ _
      (mem_listInsert_self _ _)
      (joinPath_ne_of_ne b _ _ hne)

/-- Witness for C6 at the concrete failing-write environment. -/
theorem installAttempt_ledger_write_swallowed_witness :
    (installAttempt ledgerWriteFailEnv sampleOptions "/community"
        sampleSigned.downloadUrl emptyData emptyData []).outcome
      = .ok ⟨true, none, none, some (joinPath "/community"
          (stripZipExt (deriveZipFilename ledgerWriteFailEnv.nowMs
            sampleSigned.downloadUrl)))⟩ ∧
    (installAttempt ledgerWriteFailEnv sampleOptions "/community"
        sampleSigned.downloadUrl emptyData emptyData []).persisted = emptyData := by
  have h := installAttempt_ledger_write_swallowed ledgerWriteFailEnv sampleOptions
    "/community" sampleSigned.downloadUrl emptyData emptyData [] eaccesError
    (by decide) rfl rfl rfl (by decide)
  exact ⟨h.1, h.2.1⟩

/-- Witness for C8: a failing uninstall aborts the update before any download
call. -/
theorem updateLivery_uninstall_before_download_witness :
    updateLivery [sampleLivery] sampleUpdate
        (.ok { success := false, error := some "Failed to uninstall old version" }) true
      = (false, [UpdateEvent.uninstallCall "/community/a320-4k"]) :=
  (updateLivery_uninstall_before_download [sampleLivery] sampleUpdate
    (.ok { success := false, error := some "Failed to uninstall old version" }) true
    sampleLivery "/community/a320-4k" (by decide) (by decide) (by decide) rfl
    (by decide)).2.1
    { success := false, error := some "Failed to uninstall old version" } rfl rfl

end BAV
